import Mathlib

/-!
# sdb: process control core

A shallow embedding of `src/src/process.cpp`, `src/include/libsdb/process.hpp`
and the command dispatch of `src/tools/sdb.cpp`.

* C++ `int` / `pid_t` / `long` values are `Int`; the only arithmetic done on them is
  the bit masking of the wait-status macros, where the result does not depend on the width.
* The operating system is an oracle: every request the program issues is appended to a
  trace, and the answer may depend on everything requested so far.
* A C++ exception is the `error` branch of a result; stack unwinding that destroys a
  `std::unique_ptr<process>` runs the destructor explicitly.
-/

namespace sdb

/-! ## Data model (`process.hpp`) -/

/-- The enumeration `enum class process_state`. -/
inductive process_state
  | stopped
  | running
  | exited
  | terminated
deriving DecidableEq

/-- The record `struct stop_reason`: `info` is a `std::uint8_t`, kept as a natural number
below 256. -/
structure stop_reason where
  reason : process_state
  info : Nat
deriving DecidableEq

/-- The class `process`: its four private data members. -/
structure process where
  pid_ : Int
  terminate_on_end_ : Bool
  state_ : process_state
  is_attached_ : Bool
deriving DecidableEq

/-- The private constructor `process(pid, terminate_on_end, is_attached)`; `state_` keeps its
default member initialiser `process_state::stopped`. -/
def process.ctor (pid : Int) (terminate_on_end : Bool) (is_attached : Bool) : process :=
  { pid_ := pid, terminate_on_end_ := terminate_on_end, state_ := process_state.stopped,
    is_attached_ := is_attached }

/-- The accessor `pid()`. -/
def process.pid (p : process) : Int := p.pid_

/-- The accessor `state()`. -/
def process.state (p : process) : process_state := p.state_

/-! ## Wait-status macros of `<sys/wait.h>` (Linux, glibc `bits/waitstatus.h`) -/

/-- Conversion of an `int` to `signed char` (two's complement, 8 bits). -/
def to_signed_char (x : Int) : Int :=
  if x % 256 < 128 then x % 256 else x % 256 - 256

/-- Conversion of an `int` to `std::uint8_t`. -/
def to_uint8 (x : Int) : Nat := (x % 256).toNat

/-- The macro `WEXITSTATUS(status)`, defined as `((status) & 0xff00) >> 8`. -/
def WEXITSTATUS (status : Int) : Int := Int.shiftRight (Int.land status 0xff00) 8

/-- The macro `WTERMSIG(status)`, defined as `(status) & 0x7f`. -/
def WTERMSIG (status : Int) : Int := Int.land status 0x7f

/-- The macro `WSTOPSIG(status)`, defined as `WEXITSTATUS(status)`. -/
def WSTOPSIG (status : Int) : Int := WEXITSTATUS status

/-- The macro `WIFEXITED(status)`, defined as `WTERMSIG(status) == 0`. -/
def WIFEXITED (status : Int) : Bool := decide (WTERMSIG status = 0)

/-- The macro `WIFSIGNALED(status)`, defined as
`((signed char) (((status) & 0x7f) + 1) >> 1) > 0`. -/
def WIFSIGNALED (status : Int) : Bool :=
  decide (Int.shiftRight (to_signed_char (Int.land status 0x7f + 1)) 1 > 0)

/-- The macro `WIFSTOPPED(status)`, defined as `((status) & 0xff) == 0x7f`. -/
def WIFSTOPPED (status : Int) : Bool := decide (Int.land status 0xff = 0x7f)

/-! ## Stop-reason decoder -/

/-- The constructor `stop_reason::stop_reason(int wait_status)`.

The struct has no default member initialisers and the constructor has no final `else`,
so when none of the three tests holds both members keep whatever their storage held:
`uninit` stands for that indeterminate content. -/
def stop_reason.ctor (uninit : stop_reason) (wait_status : Int) : stop_reason :=
  if WIFEXITED wait_status then
    { uninit with reason := process_state.exited, info := to_uint8 (WEXITSTATUS wait_status) }
  else if WIFSIGNALED wait_status then
    { uninit with reason := process_state.terminated, info := to_uint8 (WTERMSIG wait_status) }
  else if WIFSTOPPED wait_status then
    { uninit with reason := process_state.stopped, info := to_uint8 (WSTOPSIG wait_status) }
  else
    uninit

/-- The three classification tests of the decoder, named so that they can be reordered. -/
inductive wait_test
  | exited_normally
  | killed_by_signal
  | stopped_by_signal
deriving DecidableEq

/-- The macro each test stands for. -/
def wait_test.holds : wait_test → Int → Bool
  | wait_test.exited_normally, w => WIFEXITED w
  | wait_test.killed_by_signal, w => WIFSIGNALED w
  | wait_test.stopped_by_signal, w => WIFSTOPPED w

/-- The members the decoder assigns in the branch guarded by each test. -/
def wait_test.decode : wait_test → Int → stop_reason
  | wait_test.exited_normally, w => ⟨process_state.exited, to_uint8 (WEXITSTATUS w)⟩
  | wait_test.killed_by_signal, w => ⟨process_state.terminated, to_uint8 (WTERMSIG w)⟩
  | wait_test.stopped_by_signal, w => ⟨process_state.stopped, to_uint8 (WSTOPSIG w)⟩

/-- The decoder with its tests tried in an arbitrary order: the first test of `order` that
holds decides the result. The source is the instance
`[exited_normally, killed_by_signal, stopped_by_signal]`. -/
def decode_in_order (order : List wait_test) (uninit : stop_reason) (w : Int) : stop_reason :=
  match order.find? (fun t => t.holds w) with
  | some t => t.decode w
  | none => uninit

/-! ## The operating system as an oracle -/

/-- The `ptrace` requests the program issues. -/
inductive ptrace_request
  | PTRACE_TRACEME
  | PTRACE_CONT
  | PTRACE_ATTACH
  | PTRACE_DETACH
deriving DecidableEq

/-- The signals the program sends. -/
inductive signal
  | SIGKILL
  | SIGCONT
  | SIGSTOP
deriving DecidableEq

/-- One request to the world outside the program. Every `ptrace` call of the source passes
`nullptr` for address and data (so `PTRACE_CONT` injects no signal); `waitpid` records its
`options` argument. The `channel_*` requests are those made through `sdb::pipe`. -/
inductive request
  | fork
  | ptrace (req : ptrace_request) (pid : Int)
  | waitpid (pid : Int) (options : Int)
  | kill (pid : Int) (sig : signal)
  | execlp (file : String)
  | exit (status : Int)
  | channel_open (close_on_exec : Bool)
  | channel_close_read
  | channel_close_write
  | channel_read
  | channel_write (bytes : List Char)
  | cout (text : String)
  | cerr (text : String)
deriving DecidableEq

/-- What the world answers to one request: the return value, the value stored through the
status pointer of `waitpid`, the bytes delivered by a channel read, and the value of `errno`
left by a failing call. -/
structure answer where
  ret : Int
  status : Int
  data : List Char
  errno : Int
deriving DecidableEq

/-- The world: the requests issued so far (oldest first) and the oracle that answers the next
request given that history. `strerror` and `sigabbrev_np` are the libc functions of those
names. -/
structure os where
  trace : List request
  reply : List request → request → answer
  strerror : Int → String
  sigabbrev_np : Nat → String

/-- Issue one request: read the oracle's answer and record the request. -/
def os.call (w : os) (r : request) : answer × os :=
  (w.reply w.trace r, { w with trace := w.trace ++ [r] })

/-- The world after the requests `rs` have been issued from `w`. -/
def os.after (w : os) (rs : List request) : os :=
  { w with trace := w.trace ++ rs }

/-- The oracle's answer to `r` once the requests `rs` have been issued from `w`. -/
def os.answer (w : os) (rs : List request) (r : request) : answer :=
  w.reply (w.trace ++ rs) r

/-- Modelled from the spec: the error-reporting collaborator `libsdb/error.hpp`, which is not
among the sources. Per the spec it raises "a structured failure either from a plain message
or from the current OS error code": `send` carries the message, `send_errno` carries the
message given by the caller and the `errno` of the failed call. -/
inductive error
  | send (what : String)
  | send_errno (what : String) (errno : Int)
deriving DecidableEq

/-- Modelled from the spec: the constructor of the byte channel `sdb::pipe` of
`libsdb/pipe.hpp`, which is not among the sources. Per the spec the channel supports
"creation with a close-on-exec option on at least the write end". -/
def pipe.ctor (close_on_exec : Bool) (w : os) : os :=
  (w.call (request.channel_open close_on_exec)).2

/-- Modelled from the spec: the member `pipe::close_read()` of the absent `libsdb/pipe.hpp`
("independent closing of each end"). -/
def pipe.close_read (w : os) : os :=
  (w.call request.channel_close_read).2

/-- Modelled from the spec: the member `pipe::close_write()` of the absent `libsdb/pipe.hpp`
("independent closing of each end"). -/
def pipe.close_write (w : os) : os :=
  (w.call request.channel_close_write).2

/-- Modelled from the spec: the member `pipe::read()` of the absent `libsdb/pipe.hpp`, "a
blocking read-to-end-of-stream operation returning all bytes written before closure": the
bytes are the `data` of the answer. -/
def pipe.read (w : os) : List Char × os :=
  ((w.call request.channel_read).1.data, (w.call request.channel_read).2)

/-- Modelled from the spec: the member `pipe::write(bytes, size)` of the absent
`libsdb/pipe.hpp`, which puts the bytes on the channel. -/
def pipe.write (bytes : List Char) (w : os) : os :=
  (w.call (request.channel_write bytes)).2

/-! ## `process` member functions (`process.cpp`) -/

/-- The destructor `process::~process()`. The results of the calls are ignored by the
source, so only the requests matter. -/
def process.dtor (p : process) (w : os) : os :=
  if p.pid_ ≠ 0 then
    let w1 :=
      if p.is_attached_ then
        let w2 :=
          if p.state_ = process_state.running then
            let w3 := (w.call (request.kill p.pid_ signal.SIGSTOP)).2
            (w3.call (request.waitpid p.pid_ 0)).2
          else w
        let w4 := (w2.call (request.ptrace ptrace_request.PTRACE_DETACH p.pid_)).2
        (w4.call (request.kill p.pid_ signal.SIGCONT)).2
      else w
    if p.terminate_on_end_ then
      let w5 := (w1.call (request.kill p.pid_ signal.SIGKILL)).2
      (w5.call (request.waitpid p.pid_ 0)).2
    else w1
  else w

/-- The member function `process::resume()`: the result, the handle afterwards and the world
afterwards. -/
def process.resume (p : process) (w : os) : Except error Unit × process × os :=
  let c := w.call (request.ptrace ptrace_request.PTRACE_CONT p.pid_)
  if c.1.ret < 0 then
    (Except.error (error.send_errno "resume failed" c.1.errno), p, c.2)
  else
    (Except.ok (), { p with state_ := process_state.running }, c.2)

/-- The member function `process::wait_on_signal()`; `uninit` is the indeterminate content
of the storage of its local `stop_reason reason`. -/
def process.wait_on_signal (p : process) (uninit : stop_reason) (w : os) :
    Except error stop_reason × process × os :=
  let c := w.call (request.waitpid p.pid_ 0)
  if c.1.ret < 0 then
    (Except.error (error.send_errno "wait_on_signal failed" c.1.errno), p, c.2)
  else
    let reason := stop_reason.ctor uninit c.1.status
    (Except.ok reason, { p with state_ := reason.reason }, c.2)

/-- The factory `process::attach(pid)`. When `wait_on_signal` throws, unwinding destroys the
`std::unique_ptr<process> proc`, which runs the destructor of the handle. -/
def process.attach (pid : Int) (uninit : stop_reason) (w : os) : Except error process × os :=
  if pid = 0 then
    (Except.error (error.send "Invalid pid"), w)
  else
    let c := w.call (request.ptrace ptrace_request.PTRACE_ATTACH pid)
    if c.1.ret < 0 then
      (Except.error (error.send_errno "Could not attach process" c.1.errno), c.2)
    else
      let proc := process.ctor pid false true
      match proc.wait_on_signal uninit c.2 with
      | (Except.error e, proc1, w1) => (Except.error e, proc1.dtor w1)
      | (Except.ok _, proc1, w1) => (Except.ok proc1, w1)

/-- How a call of `process::launch` ends for the process that executes it: it returns a
handle, it throws, it calls `exit` (the child after a failure), or its image is replaced by
the target program (the child after a successful `execlp`). -/
inductive launch_result
  | returned (proc : process)
  | thrown (e : error)
  | exited (status : Int)
  | replaced
deriving DecidableEq

/-- The helper `exit_with_perror(channel, pfx)` of the anonymous namespace; `errno` is the
value left by the call that has just failed. It does not return. -/
def exit_with_perror (w : os) (errno : Int) (pfx : String) : launch_result × os :=
  let msg := pfx ++ ": " ++ w.strerror errno
  let w1 := pipe.write msg.toList w
  (launch_result.exited (-1), (w1.call (request.exit (-1))).2)

/-- The factory `process::launch(path, debug)`, followed in the process that executes it (the
answer to `fork` tells whether that is the parent or the child). When `wait_on_signal`
throws, unwinding destroys the `std::unique_ptr<process> proc`, which runs the destructor of
the handle. A successful `execlp` does not return. -/
def process.launch (path : String) (debug : Bool) (uninit : stop_reason) (w : os) :
    launch_result × os :=
  let w1 := pipe.ctor true w
  let f := w1.call request.fork
  let pid := f.1.ret
  if pid < 0 then
    (launch_result.thrown (error.send_errno "fork failed" f.1.errno), f.2)
  else if pid = 0 then
    let w2 := pipe.close_read f.2
    let t := if debug then w2.call (request.ptrace ptrace_request.PTRACE_TRACEME 0)
             else (⟨0, 0, [], 0⟩, w2)
    if debug && decide (t.1.ret < 0) then
      exit_with_perror t.2 t.1.errno "Tracing failed"
    else
      let x := t.2.call (request.execlp path)
      if x.1.ret < 0 then
        exit_with_perror x.2 x.1.errno "exec failed"
      else
        (launch_result.replaced, x.2)
  else
    let w2 := pipe.close_write f.2
    let d := pipe.read w2
    let data := d.1
    let w3 := pipe.close_read d.2
    if data.length > 0 then
      let w4 := (w3.call (request.waitpid pid 0)).2
      (launch_result.thrown (error.send (String.mk data)), w4)
    else
      let proc := process.ctor pid true debug
      if debug then
        match proc.wait_on_signal uninit w3 with
        | (Except.error e, proc1, w4) => (launch_result.thrown e, proc1.dtor w4)
        | (Except.ok _, proc1, w4) => (launch_result.returned proc1, w4)
      else
        (launch_result.returned proc, w3)

/-! ## Command dispatch (`tools/sdb.cpp`) -/

/-- The call `std::getline(ss, item, delimiter)` on the unread rest `ss` of the stream: on
success the extracted item and the new rest (the delimiter is consumed, not stored); it fails
exactly when nothing at all can be extracted, that is at end of stream. -/
def getline (ss : List Char) (delimiter : Char) : Option (List Char × List Char) :=
  match ss with
  | [] => none
  | _ :: _ => some (ss.takeWhile (fun c => c ≠ delimiter),
                    (ss.dropWhile (fun c => c ≠ delimiter)).drop 1)

/-- The `while (std::getline(ss, item, delimiter)) result.push_back(item);` loop of `split`,
bounded by `fuel` iterations; `none` when the bound is hit before the stream ends. -/
def split_loop : Nat → List Char → Char → List (List Char) → Option (List (List Char))
  | 0, _, _, _ => none
  | fuel + 1, ss, delimiter, result =>
    match getline ss delimiter with
    | some (item, rest) => split_loop fuel rest delimiter (result ++ [item])
    | none => some result

/-- The function `split(str, delimiter)`: every successful `getline` consumes at least one
character, so `str.length + 1` iterations are enough. -/
def split (str : List Char) (delimiter : Char) : Option (List (List Char)) :=
  split_loop (str.length + 1) str delimiter []

/-- The function `is_prefix(str, pfx)`: `std::equal` over the range of `str` compares it
with the first `str.length()` characters of `pfx`. -/
def is_prefix (str : List Char) (pfx : List Char) : Bool :=
  if str.length > pfx.length then false
  else decide (str = pfx.take str.length)

/-- The function `print_stop_reason(process, reason)`: one line on standard output. -/
def print_stop_reason (p : process) (reason : stop_reason) (w : os) : os :=
  let head := "Process " ++ toString p.pid ++ " "
  let body :=
    match reason.reason with
    | process_state.exited => "exited with status " ++ toString reason.info
    | process_state.terminated => "terminated with signal " ++ w.sigabbrev_np reason.info
    | process_state.stopped => "stopped with signal " ++ w.sigabbrev_np reason.info
    | process_state.running => ""
  (w.call (request.cout (head ++ body ++ "\n"))).2

/-- The function `handle_command(process, line)`. The outer `Option` is `none` when the
call has no defined result: `args[0]` on an empty vector (only for an empty `line`, which
`main_loop` never passes) or an exhausted loop bound in `split`. -/
def handle_command (p : process) (line : List Char) (uninit : stop_reason) (w : os) :
    Option (Except error Unit × process × os) :=
  match split line ' ' with
  | none => none
  | some [] => none
  | some (command :: _) =>
    if is_prefix command "continue".toList then
      match p.resume w with
      | (Except.error e, p1, w1) => some (Except.error e, p1, w1)
      | (Except.ok _, p1, w1) =>
        match p1.wait_on_signal uninit w1 with
        | (Except.error e, p2, w2) => some (Except.error e, p2, w2)
        | (Except.ok reason, p2, w2) => some (Except.ok (), p2, print_stop_reason p2 reason w2)
    else
      some (Except.ok (), p,
        (w.call (request.cerr ("Unknown command: " ++ String.mk command ++ "\n"))).2)

/-! ## Worlds used for concrete evaluation -/

/-- A world with an empty history in which every call succeeds with return value `1`
(so `fork` answers in the parent with child pid `1`), every wait reports `status`, and a
channel read delivers `bytes`. -/
def scripted_os (status : Int) (bytes : List Char) : os :=
  { trace := [],
    reply := fun _ _ => ⟨1, status, bytes, 0⟩,
    strerror := fun _ => "error",
    sigabbrev_np := fun _ => "SIG" }

/-- A world with an empty history in which every call fails with return value `-1` and
`errno` 3. -/
def failing_os : os :=
  { trace := [],
    reply := fun _ _ => ⟨-1, 0, [], 3⟩,
    strerror := fun _ => "No such process",
    sigabbrev_np := fun _ => "SIG" }


/-! ## Bit masks as remainders -/

theorem ldiff_low_mask (k m : Nat) : Nat.ldiff (2 ^ k - 1) m = 2 ^ k - 1 - m % 2 ^ k := by
  apply Nat.eq_of_testBit_eq
  intro i
  have hlt : m % 2 ^ k < 2 ^ k := Nat.mod_lt _ (Nat.two_pow_pos k)
  have e : 2 ^ k - 1 - m % 2 ^ k = 2 ^ k - (m % 2 ^ k + 1) := by omega
  rw [e, Nat.testBit_two_pow_sub_succ hlt, Nat.testBit_ldiff, Nat.testBit_two_pow_sub_one,
    Nat.testBit_mod_two_pow]
  cases decide (i < k) <;> cases m.testBit i <;> rfl

theorem land_low_mask (k : Nat) (w : Int) :
    Int.land w ((2 ^ k - 1 : Nat) : Int) = w % 2 ^ k := by
  cases w with
  | ofNat n =>
    show ((n &&& (2 ^ k - 1) : Nat) : Int) = _
    rw [Nat.and_pow_two_sub_one_eq_mod]
    simp
  | negSucc m =>
    show ((Nat.ldiff (2 ^ k - 1) m : Nat) : Int) = _
    rw [ldiff_low_mask]
    have hlt : m % 2 ^ k < 2 ^ k := Nat.mod_lt _ (Nat.two_pow_pos k)
    have hp : (0 : Int) < 2 ^ k := by positivity
    rw [Int.negSucc_emod m hp]
    have hcast : ((2 ^ k - 1 - m % 2 ^ k : Nat) : Int)
        = (2 ^ k : Int) - 1 - ((m % 2 ^ k : Nat) : Int) := by
      have hc : (2 : Int) ^ k = ((2 ^ k : Nat) : Int) := by push_cast; rfl
      rw [hc]
      generalize 2 ^ k = p at *
      omega
    rw [hcast]; simp

theorem land_7f (w : Int) : Int.land w 0x7f = w % 128 := by
  simpa using land_low_mask 7 w

theorem land_ff (w : Int) : Int.land w 0xff = w % 256 := by
  simpa using land_low_mask 8 w

theorem nat_land_ff00_shift (n : Nat) : (n &&& 0xff00) >>> 8 = (n / 256) % 256 := by
  apply Nat.eq_of_testBit_eq
  intro i
  have e : (n / 256) % 256 = (n >>> 8) % 2 ^ 8 := by simp [Nat.shiftRight_eq_div_pow]
  rw [e, Nat.testBit_mod_two_pow, Nat.testBit_shiftRight, Nat.testBit_shiftRight,
    Nat.testBit_and]
  have hbit : Nat.testBit 0xff00 (8 + i) = decide (i < 8) := by
    rw [← Nat.testBit_shiftRight]
    exact Nat.testBit_two_pow_sub_one 8 i
  rw [hbit, Bool.and_comm]

theorem nat_ldiff_ff00_shift (m : Nat) :
    (Nat.ldiff 0xff00 m) >>> 8 = 255 - (m / 256) % 256 := by
  have h := ldiff_low_mask 8 (m >>> 8)
  have e : 255 - (m / 256) % 256 = 2 ^ 8 - 1 - (m >>> 8) % 2 ^ 8 := by
    simp [Nat.shiftRight_eq_div_pow]
  rw [e, ← h]
  apply Nat.eq_of_testBit_eq
  intro i
  rw [Nat.testBit_shiftRight, Nat.testBit_ldiff, Nat.testBit_ldiff, Nat.testBit_shiftRight]
  have hbit : Nat.testBit 0xff00 (8 + i) = Nat.testBit (2 ^ 8 - 1) i := by
    rw [← Nat.testBit_shiftRight]; rfl
  rw [hbit]

theorem land_ff00_shift (w : Int) :
    Int.shiftRight (Int.land w 0xff00) 8 = (w / 256) % 256 := by
  cases w with
  | ofNat n =>
    show (((n &&& 0xff00) >>> 8 : Nat) : Int) = _
    rw [nat_land_ff00_shift]
    simp
  | negSucc m =>
    show (((Nat.ldiff 0xff00 m) >>> 8 : Nat) : Int) = _
    rw [nat_ldiff_ff00_shift]
    have h1 : (m / 256) % 256 < 256 := Nat.mod_lt _ (by decide)
    have h2 : Int.negSucc m / 256 = Int.negSucc (m / 256) := by
      rw [Int.negSucc_ediv m (by decide)]
      show -(((m : Int) / 256) + 1) = _
      rw [Int.negSucc_eq]; norm_cast
    rw [h2, Int.negSucc_emod _ (by decide)]
    omega

/-! ## The wait-status macros in arithmetic form -/

theorem WTERMSIG_eq (w : Int) : WTERMSIG w = w % 128 := land_7f w

theorem WEXITSTATUS_eq (w : Int) : WEXITSTATUS w = w / 256 % 256 := land_ff00_shift w

theorem WSTOPSIG_eq (w : Int) : WSTOPSIG w = w / 256 % 256 := land_ff00_shift w

theorem WIFEXITED_iff (w : Int) : WIFEXITED w = true ↔ w % 128 = 0 := by
  simp [WIFEXITED, WTERMSIG_eq]

theorem WIFSIGNALED_iff (w : Int) : WIFSIGNALED w = true ↔ 1 ≤ w % 128 ∧ w % 128 ≤ 126 := by
  unfold WIFSIGNALED
  have hs : ∀ x : Int, Int.shiftRight x 1 = x / 2 := fun x => Int.shiftRight_eq_div_pow x 1
  rw [hs, land_7f, decide_eq_true_eq]
  unfold to_signed_char
  have h0 : 0 ≤ w % 128 := Int.emod_nonneg _ (by decide)
  have h1 : w % 128 < 128 := Int.emod_lt_of_pos _ (by decide)
  split_ifs with h <;> norm_num <;> omega

theorem WIFSTOPPED_iff (w : Int) : WIFSTOPPED w = true ↔ w % 256 = 127 := by
  simp [WIFSTOPPED, land_ff]

theorem to_uint8_of_lt (x : Int) (n : Nat) (hx : x = n) (hn : n ≤ 255) : to_uint8 x = n := by
  subst hx
  unfold to_uint8
  omega


/-! ## The decoder on classified statuses -/

theorem ctor_of_exited (uninit : stop_reason) (w : Int) (h : w % 128 = 0) :
    stop_reason.ctor uninit w = ⟨process_state.exited, to_uint8 (w / 256 % 256)⟩ := by
  have he : WIFEXITED w = true := (WIFEXITED_iff w).2 h
  simp [stop_reason.ctor, he, WEXITSTATUS_eq]

theorem ctor_of_signaled (uninit : stop_reason) (w : Int)
    (h : 1 ≤ w % 128 ∧ w % 128 ≤ 126) :
    stop_reason.ctor uninit w = ⟨process_state.terminated, to_uint8 (w % 128)⟩ := by
  have he : WIFEXITED w = false := by
    rw [Bool.eq_false_iff, Ne, WIFEXITED_iff]; omega
  have hs : WIFSIGNALED w = true := (WIFSIGNALED_iff w).2 h
  simp [stop_reason.ctor, he, hs, WTERMSIG_eq]

theorem ctor_of_stopped (uninit : stop_reason) (w : Int) (h : w % 256 = 127) :
    stop_reason.ctor uninit w = ⟨process_state.stopped, to_uint8 (w / 256 % 256)⟩ := by
  have he : WIFEXITED w = false := by
    rw [Bool.eq_false_iff, Ne, WIFEXITED_iff]; omega
  have hs : WIFSIGNALED w = false := by
    rw [Bool.eq_false_iff, Ne, WIFSIGNALED_iff]; omega
  have ht : WIFSTOPPED w = true := (WIFSTOPPED_iff w).2 h
  simp [stop_reason.ctor, he, hs, ht, WSTOPSIG_eq]

theorem ctor_of_unclassified (uninit : stop_reason) (w : Int) (h : w % 256 = 255) :
    stop_reason.ctor uninit w = uninit := by
  have he : WIFEXITED w = false := by
    rw [Bool.eq_false_iff, Ne, WIFEXITED_iff]; omega
  have hs : WIFSIGNALED w = false := by
    rw [Bool.eq_false_iff, Ne, WIFSIGNALED_iff]; omega
  have ht : WIFSTOPPED w = false := by
    rw [Bool.eq_false_iff, Ne, WIFSTOPPED_iff]; omega
  simp [stop_reason.ctor, he, hs, ht]

/-- C4: for every exit code `c` with `0 ≤ c ≤ 255` and every wait status `w` whose low seven
bits are zero and whose bits 8..15 equal `c`, the decoder yields `{exited, c}`; the status
`256 * c` is one such `w`. -/
theorem stop_reason_normal_exit (uninit : stop_reason) (c : Nat) (w : Int) (hc : c ≤ 255)
    (hlow : w % 128 = 0) (hcode : w / 256 % 256 = c) :
    stop_reason.ctor uninit w = ⟨process_state.exited, c⟩ ∧
      stop_reason.ctor uninit (256 * c) = ⟨process_state.exited, c⟩ := by
  constructor
  · rw [ctor_of_exited uninit w hlow, to_uint8_of_lt _ c hcode hc]
  · have h1 : (256 * (c : Int)) % 128 = 0 := by omega
    have h2 : (256 * (c : Int)) / 256 % 256 = c := by omega
    rw [ctor_of_exited uninit _ h1, to_uint8_of_lt _ c h2 hc]

theorem stop_reason_normal_exit_witness :
    stop_reason.ctor ⟨process_state.running, 0⟩ 0x0700 = ⟨process_state.exited, 7⟩ ∧
      stop_reason.ctor ⟨process_state.running, 0⟩ (256 * (7 : Nat)) = ⟨process_state.exited, 7⟩ :=
  stop_reason_normal_exit ⟨process_state.running, 0⟩ 7 0x0700 (by decide) (by decide) (by decide)

/-- C5: a wait status whose low seven bits are a signal number `s` with `1 ≤ s ≤ 126`
(core-dump bit 0x80 set or clear) decodes to `{terminated, s}`, and a wait status whose low
byte is 0x7f and whose bits 8..15 equal `s` decodes to `{stopped, s}`. -/
theorem stop_reason_signal_cases (uninit : stop_reason) (s : Nat) (w : Int) :
    (1 ≤ s → s ≤ 126 → w % 128 = s →
        stop_reason.ctor uninit w = ⟨process_state.terminated, s⟩) ∧
      (s ≤ 255 → w % 256 = 0x7f → w / 256 % 256 = s →
        stop_reason.ctor uninit w = ⟨process_state.stopped, s⟩) := by
  constructor
  · intro h1 h2 hw
    rw [ctor_of_signaled uninit w (by omega), to_uint8_of_lt _ s hw (by omega)]
  · intro h1 hw hs
    rw [ctor_of_stopped uninit w hw, to_uint8_of_lt _ s hs h1]

theorem stop_reason_signal_cases_witness :
    stop_reason.ctor ⟨process_state.running, 0⟩ 0x8b = ⟨process_state.terminated, 11⟩ ∧
      stop_reason.ctor ⟨process_state.running, 0⟩ 0x0b = ⟨process_state.terminated, 11⟩ ∧
      stop_reason.ctor ⟨process_state.running, 0⟩ 0x137f = ⟨process_state.stopped, 19⟩ :=
  ⟨(stop_reason_signal_cases ⟨process_state.running, 0⟩ 11 0x8b).1
      (by decide) (by decide) (by decide),
   (stop_reason_signal_cases ⟨process_state.running, 0⟩ 11 0x0b).1
      (by decide) (by decide) (by decide),
   (stop_reason_signal_cases ⟨process_state.running, 0⟩ 19 0x137f).2
      (by decide) (by decide) (by decide)⟩

/-- C10: for every wait status (negative ones included) no two of the three tests of the
decoder hold together, the killed-by-signal test holds exactly when the low seven bits lie
in 1..126, and trying the three tests in any order gives the result of the source's order. -/
theorem decoder_tests_exclusive (uninit : stop_reason) (w : Int) :
    ¬ (WIFEXITED w = true ∧ WIFSIGNALED w = true) ∧
      ¬ (WIFEXITED w = true ∧ WIFSTOPPED w = true) ∧
      ¬ (WIFSIGNALED w = true ∧ WIFSTOPPED w = true) ∧
      (WIFEXITED w = true ↔ Int.land w 0x7f = 0) ∧
      (WIFSIGNALED w = true ↔ 1 ≤ Int.land w 0x7f ∧ Int.land w 0x7f ≤ 126) ∧
      (WIFSTOPPED w = true ↔ Int.land w 0xff = 0x7f) ∧
      ∀ order : List wait_test,
        order.Perm [wait_test.exited_normally, wait_test.killed_by_signal,
          wait_test.stopped_by_signal] →
        decode_in_order order uninit w = stop_reason.ctor uninit w := by
  have hE := WIFEXITED_iff w
  have hS := WIFSIGNALED_iff w
  have hT := WIFSTOPPED_iff w
  refine ⟨?_, ?_, ?_, ?_, ?_, ?_, ?_⟩
  · rw [hE, hS]; omega
  · rw [hE, hT]; omega
  · rw [hS, hT]; omega
  · rw [hE, land_7f]
  · rw [hS, land_7f]
  · rw [hT, land_ff]
  · intro order hperm
    have hlen : order.length = 3 := by simpa using hperm.length_eq
    match order, hlen with
    | [a, b, c], _ =>
      have hx1 : ¬ (WIFEXITED w = true ∧ WIFSIGNALED w = true) := by rw [hE, hS]; omega
      have hx2 : ¬ (WIFEXITED w = true ∧ WIFSTOPPED w = true) := by rw [hE, hT]; omega
      have hx3 : ¬ (WIFSIGNALED w = true ∧ WIFSTOPPED w = true) := by rw [hS, hT]; omega
      cases a <;> cases b <;> cases c <;>
        first
        | exact absurd hperm (by decide)
        | (simp only [decode_in_order, stop_reason.ctor, List.find?, wait_test.holds,
            wait_test.decode]
           cases h1 : WIFEXITED w <;> cases h2 : WIFSIGNALED w <;> cases h3 : WIFSTOPPED w <;>
             simp_all)

theorem decoder_tests_exclusive_witness :
    decode_in_order [wait_test.stopped_by_signal, wait_test.killed_by_signal,
        wait_test.exited_normally] ⟨process_state.running, 0⟩ 0x137f
      = stop_reason.ctor ⟨process_state.running, 0⟩ 0x137f :=
  (decoder_tests_exclusive ⟨process_state.running, 0⟩ 0x137f).2.2.2.2.2.2 _ (by decide)

/-- C8: on the continued status 0xffff none of the three tests holds, and the decoder
raises nothing: it hands back the indeterminate storage untouched, and `wait_on_signal`
returns it as an ordinary result and copies its `reason` into the state of the handle. -/
theorem stop_reason_unclassified_not_an_error (uninit : stop_reason) (p : process) :
    WIFEXITED 0xffff = false ∧ WIFSIGNALED 0xffff = false ∧ WIFSTOPPED 0xffff = false ∧
      stop_reason.ctor uninit 0xffff = uninit ∧
      (p.wait_on_signal uninit (scripted_os 0xffff [])).1 = Except.ok uninit ∧
      (p.wait_on_signal uninit (scripted_os 0xffff [])).2.1.state = uninit.reason := by
  have h : stop_reason.ctor uninit 0xffff = uninit := ctor_of_unclassified uninit 0xffff (by decide)
  refine ⟨by decide, by decide, by decide, h, ?_, ?_⟩
  · simp [process.wait_on_signal, os.call, scripted_os, h]
  · simp [process.wait_on_signal, os.call, scripted_os, h, process.state]


/-! ## Requests and the oracle -/

theorem os.call_eq (w : os) (r : request) : w.call r = (w.answer [] r, w.after [r]) := by
  simp [os.call, os.answer, os.after]

theorem os.after_call (w : os) (rs : List request) (r : request) :
    (w.after rs).call r = (w.answer rs r, w.after (rs ++ [r])) := by
  simp [os.call, os.answer, os.after]

theorem os.after_after (w : os) (rs ss : List request) :
    (w.after rs).after ss = w.after (rs ++ ss) := by
  simp [os.after]

theorem os.after_nil (w : os) : w.after [] = w := by
  simp [os.after]

theorem os.after_trace (w : os) (rs : List request) : (w.after rs).trace = w.trace ++ rs := rfl

theorem os.after_answer (w : os) (rs ss : List request) (r : request) :
    (w.after rs).answer ss r = w.answer (rs ++ ss) r := by
  simp [os.answer, os.after]

/-- C1: the destructor issues nothing when `pid_` is 0; otherwise it issues the stop and the
wait for it when the handle is attached and running, then the detach and the continue signal
when it is attached, then the kill and the reaping wait when `terminate_on_end_` is set, in
that order and nothing else. A SIGKILL is sent iff `pid_ ≠ 0` and `terminate_on_end_`; with a
running attached handle the stop-and-wait comes before the detach; with an attached handle
that terminates, the kill comes after the detach. -/
theorem dtor_requests (p : process) (w : os) :
    ∃ issued : List request,
      p.dtor w = w.after issued ∧
      issued =
        (if p.pid_ = 0 then []
         else
          (if p.is_attached_ = true ∧ p.state_ = process_state.running then
              [request.kill p.pid_ signal.SIGSTOP, request.waitpid p.pid_ 0]
            else []) ++
          (if p.is_attached_ = true then
              [request.ptrace ptrace_request.PTRACE_DETACH p.pid_,
               request.kill p.pid_ signal.SIGCONT]
            else []) ++
          (if p.terminate_on_end_ = true then
              [request.kill p.pid_ signal.SIGKILL, request.waitpid p.pid_ 0]
            else [])) ∧
      (request.kill p.pid_ signal.SIGKILL ∈ issued ↔
        p.pid_ ≠ 0 ∧ p.terminate_on_end_ = true) ∧
      (p.pid_ ≠ 0 → p.is_attached_ = true → p.state_ = process_state.running →
        [request.kill p.pid_ signal.SIGSTOP, request.waitpid p.pid_ 0,
         request.ptrace ptrace_request.PTRACE_DETACH p.pid_] <+: issued) ∧
      (p.pid_ ≠ 0 → p.is_attached_ = true → p.terminate_on_end_ = true →
        [request.ptrace ptrace_request.PTRACE_DETACH p.pid_,
         request.kill p.pid_ signal.SIGCONT,
         request.kill p.pid_ signal.SIGKILL, request.waitpid p.pid_ 0] <:+ issued) := by
  obtain ⟨pid, term, st, att⟩ := p
  refine ⟨_, ?_, rfl, ?_, ?_, ?_⟩
  · by_cases hp : pid = 0 <;> cases term <;> cases att <;> cases st <;>
      simp [process.dtor, hp, os.call_eq, os.after_call, os.after_nil, os.after_after]
  · by_cases hp : pid = 0 <;> cases term <;> cases att <;> cases st <;> simp [hp]
  · intro hp ha hs
    simp only at hp ha hs
    subst ha hs
    cases term <;> simp [hp, List.IsPrefix]
  · intro hp ha ht
    simp only at hp ha ht
    subst ha ht
    cases st
    case running => exact ⟨[request.kill pid signal.SIGSTOP, request.waitpid pid 0], by simp [hp]⟩
    all_goals simp [hp]

theorem dtor_requests_witness :
    ∃ issued : List request,
      (process.mk 7 true process_state.running true).dtor (scripted_os 0 []) =
        (scripted_os 0 []).after issued ∧
      issued = [request.kill 7 signal.SIGSTOP, request.waitpid 7 0,
        request.ptrace ptrace_request.PTRACE_DETACH 7, request.kill 7 signal.SIGCONT,
        request.kill 7 signal.SIGKILL, request.waitpid 7 0] := by
  obtain ⟨issued, h1, h2, _⟩ := dtor_requests (process.mk 7 true process_state.running true)
    (scripted_os 0 [])
  exact ⟨issued, h1, by rw [h2]; decide⟩


/-- C3: `resume` issues one PTRACE_CONT on the pid of the handle. When that request succeeds
the state becomes `running` and the other three members are unchanged; when it fails `resume`
raises and the handle is exactly as before; it raises exactly when the request fails. -/
theorem resume_spec (p : process) (w : os) :
    (p.resume w).2.2 = w.after [request.ptrace ptrace_request.PTRACE_CONT p.pid_] ∧
      (0 ≤ (w.answer [] (request.ptrace ptrace_request.PTRACE_CONT p.pid_)).ret →
        (p.resume w).1 = Except.ok () ∧
        (p.resume w).2.1.state_ = process_state.running ∧
        (p.resume w).2.1.pid_ = p.pid_ ∧
        (p.resume w).2.1.terminate_on_end_ = p.terminate_on_end_ ∧
        (p.resume w).2.1.is_attached_ = p.is_attached_) ∧
      ((w.answer [] (request.ptrace ptrace_request.PTRACE_CONT p.pid_)).ret < 0 →
        (p.resume w).1 = Except.error (error.send_errno "resume failed"
          (w.answer [] (request.ptrace ptrace_request.PTRACE_CONT p.pid_)).errno) ∧
        (p.resume w).2.1 = p) ∧
      ((∃ e, (p.resume w).1 = Except.error e) ↔
        (w.answer [] (request.ptrace ptrace_request.PTRACE_CONT p.pid_)).ret < 0) := by
  unfold process.resume
  rw [os.call_eq]
  by_cases h : (w.answer [] (request.ptrace ptrace_request.PTRACE_CONT p.pid_)).ret < 0
  · simp [h]
  · simp [h]

theorem resume_spec_witness :
    ((process.mk 5 true process_state.stopped true).resume (scripted_os 0 [])).1 = Except.ok () ∧
      ((process.mk 5 true process_state.stopped true).resume (scripted_os 0 [])).2.1
        = process.mk 5 true process_state.running true ∧
      ((process.mk 5 false process_state.exited true).resume failing_os).1
        = Except.error (error.send_errno "resume failed" 3) ∧
      ((process.mk 5 false process_state.exited true).resume failing_os).2.1
        = process.mk 5 false process_state.exited true := by
  have h1 := (resume_spec (process.mk 5 true process_state.stopped true)
    (scripted_os 0 [])).2.1 (by decide)
  have h2 := (resume_spec (process.mk 5 false process_state.exited true)
    failing_os).2.2.1 (by decide)
  exact ⟨h1.1, by decide, h2.1, h2.2⟩

/-- C2: `wait_on_signal` issues one wait on the pid of the handle. When the wait succeeds
with raw status `s` it returns the decoded `stop_reason` of `s`, the state becomes the
decoded reason and the other three members are unchanged; when the wait fails it raises and
the handle is exactly as before. -/
theorem wait_on_signal_spec (p : process) (uninit : stop_reason) (w : os) :
    (p.wait_on_signal uninit w).2.2 = w.after [request.waitpid p.pid_ 0] ∧
      (0 ≤ (w.answer [] (request.waitpid p.pid_ 0)).ret →
        (p.wait_on_signal uninit w).1 =
          Except.ok (stop_reason.ctor uninit (w.answer [] (request.waitpid p.pid_ 0)).status) ∧
        (p.wait_on_signal uninit w).2.1.state_ =
          (stop_reason.ctor uninit (w.answer [] (request.waitpid p.pid_ 0)).status).reason ∧
        (p.wait_on_signal uninit w).2.1.pid_ = p.pid_ ∧
        (p.wait_on_signal uninit w).2.1.terminate_on_end_ = p.terminate_on_end_ ∧
        (p.wait_on_signal uninit w).2.1.is_attached_ = p.is_attached_) ∧
      ((w.answer [] (request.waitpid p.pid_ 0)).ret < 0 →
        (p.wait_on_signal uninit w).1 = Except.error (error.send_errno "wait_on_signal failed"
          (w.answer [] (request.waitpid p.pid_ 0)).errno) ∧
        (p.wait_on_signal uninit w).2.1 = p) := by
  unfold process.wait_on_signal
  rw [os.call_eq]
  by_cases h : (w.answer [] (request.waitpid p.pid_ 0)).ret < 0
  · simp [h]
  · simp [h]

theorem wait_on_signal_spec_witness :
    ((process.mk 5 true process_state.stopped true).resume (scripted_os 0x0700 [])).1
        = Except.ok () ∧
      (((process.mk 5 true process_state.stopped true).resume (scripted_os 0x0700 [])).2.1.wait_on_signal
          ⟨process_state.running, 0⟩
          ((process.mk 5 true process_state.stopped true).resume (scripted_os 0x0700 [])).2.2).1
        = Except.ok ⟨process_state.exited, 7⟩ ∧
      (((process.mk 5 true process_state.stopped true).resume (scripted_os 0x0700 [])).2.1.wait_on_signal
          ⟨process_state.running, 0⟩
          ((process.mk 5 true process_state.stopped true).resume
            (scripted_os 0x0700 [])).2.2).2.1.state
        = process_state.exited := by
  have h := (wait_on_signal_spec
    ((process.mk 5 true process_state.stopped true).resume (scripted_os 0x0700 [])).2.1
    ⟨process_state.running, 0⟩
    ((process.mk 5 true process_state.stopped true).resume (scripted_os 0x0700 [])).2.2).2.1
    (by decide)
  refine ⟨rfl, ?_, ?_⟩
  · rw [h.1]; rfl
  · unfold process.state; rw [h.2.1]; rfl


/-- C7: `attach(0)` raises the usage error "Invalid pid" and leaves the world untouched (no
request at all). For `pid ≠ 0` the first request is the trace-attach on `pid`; when it fails
`attach` raises with nothing else requested; when it succeeds the handle
`(pid, terminate_on_end = false, is_attached = true)` is built and waited on once: a
successful wait returns that handle with the decoded state, a failed wait raises after the
teardown of the handle (detach and continue, no kill). -/
theorem attach_spec (pid : Int) (uninit : stop_reason) (w : os) :
    process.attach 0 uninit w = (Except.error (error.send "Invalid pid"), w) ∧
      (pid ≠ 0 →
        ((w.answer [] (request.ptrace ptrace_request.PTRACE_ATTACH pid)).ret < 0 →
          process.attach pid uninit w =
            (Except.error (error.send_errno "Could not attach process"
                (w.answer [] (request.ptrace ptrace_request.PTRACE_ATTACH pid)).errno),
              w.after [request.ptrace ptrace_request.PTRACE_ATTACH pid])) ∧
        (0 ≤ (w.answer [] (request.ptrace ptrace_request.PTRACE_ATTACH pid)).ret →
          (0 ≤ (w.answer [request.ptrace ptrace_request.PTRACE_ATTACH pid]
                (request.waitpid pid 0)).ret →
            process.attach pid uninit w =
              (Except.ok
                { pid_ := pid, terminate_on_end_ := false,
                  state_ := (stop_reason.ctor uninit
                    (w.answer [request.ptrace ptrace_request.PTRACE_ATTACH pid]
                      (request.waitpid pid 0)).status).reason,
                  is_attached_ := true },
               w.after [request.ptrace ptrace_request.PTRACE_ATTACH pid,
                 request.waitpid pid 0])) ∧
          ((w.answer [request.ptrace ptrace_request.PTRACE_ATTACH pid]
                (request.waitpid pid 0)).ret < 0 →
            process.attach pid uninit w =
              (Except.error (error.send_errno "wait_on_signal failed"
                  (w.answer [request.ptrace ptrace_request.PTRACE_ATTACH pid]
                    (request.waitpid pid 0)).errno),
               w.after [request.ptrace ptrace_request.PTRACE_ATTACH pid,
                 request.waitpid pid 0,
                 request.ptrace ptrace_request.PTRACE_DETACH pid,
                 request.kill pid signal.SIGCONT])))) := by
  refine ⟨by simp [process.attach], ?_⟩
  intro hp
  refine ⟨?_, ?_⟩
  · intro h
    simp [process.attach, hp, os.call_eq, h]
  · intro h
    have h1 : ¬ (w.answer [] (request.ptrace ptrace_request.PTRACE_ATTACH pid)).ret < 0 := by
      omega
    refine ⟨?_, ?_⟩
    · intro hw
      have h2 : ¬ (w.answer [request.ptrace ptrace_request.PTRACE_ATTACH pid]
          (request.waitpid pid 0)).ret < 0 := by omega
      simp [process.attach, hp, os.call_eq, h1, process.wait_on_signal, process.ctor,
        os.after_call, os.after_answer, os.after_after, h2]
    · intro hw
      simp [process.attach, hp, os.call_eq, h1, process.wait_on_signal, process.ctor,
        os.after_call, os.after_answer, hw, process.dtor, os.after_after]

theorem attach_spec_witness :
    (process.attach 0 ⟨process_state.running, 0⟩ (scripted_os 0x137f [])).1
        = Except.error (error.send "Invalid pid") ∧
      (process.attach 0 ⟨process_state.running, 0⟩ (scripted_os 0x137f [])).2.trace = [] ∧
      (process.attach 7 ⟨process_state.running, 0⟩ (scripted_os 0x137f [])).1
        = Except.ok (process.mk 7 false process_state.stopped true) ∧
      (process.attach 7 ⟨process_state.running, 0⟩ (scripted_os 0x137f [])).2.trace
        = [request.ptrace ptrace_request.PTRACE_ATTACH 7, request.waitpid 7 0] ∧
      (process.attach 7 ⟨process_state.running, 0⟩ failing_os).1
        = Except.error (error.send_errno "Could not attach process" 3) ∧
      (process.attach 7 ⟨process_state.running, 0⟩ failing_os).2.trace
        = [request.ptrace ptrace_request.PTRACE_ATTACH 7] := by
  have h0 := (attach_spec 7 ⟨process_state.running, 0⟩ (scripted_os 0x137f [])).1
  have h1 := ((attach_spec 7 ⟨process_state.running, 0⟩ (scripted_os 0x137f [])).2
    (by decide)).2 (by decide)
  have h2 := ((attach_spec 7 ⟨process_state.running, 0⟩ failing_os).2 (by decide)).1
    (by decide)
  have h3 := h1.1 (by decide)
  rw [h0, h3, h2]
  exact ⟨rfl, rfl, rfl, rfl, rfl, rfl⟩


/-- C6: once `fork` has answered in the parent with the child's pid, `launch` closes the
write end, reads the channel and closes the read end. With at least one byte read it reaps
the child with one wait on its pid and raises an error whose message is exactly the bytes
read, building no handle and calling no `wait_on_signal`. With zero bytes it builds the
handle `(pid, terminate_on_end = true, is_attached = debug)` and raises no channel error:
without tracing it returns the handle with nothing more requested; with tracing it waits on
the handle once, returning it with the decoded state when the wait succeeds and raising the
wait's own error after the teardown of the handle when the wait fails. -/
theorem launch_spec (path : String) (debug : Bool) (uninit : stop_reason) (w : os)
    (hfork : 0 < (w.answer [request.channel_open true] request.fork).ret) :
    (((w.answer [request.channel_open true, request.fork, request.channel_close_write]
          request.channel_read).data ≠ [] →
        process.launch path debug uninit w =
          (launch_result.thrown (error.send (String.mk
              (w.answer [request.channel_open true, request.fork, request.channel_close_write]
                request.channel_read).data)),
           w.after [request.channel_open true, request.fork, request.channel_close_write,
             request.channel_read, request.channel_close_read,
             request.waitpid (w.answer [request.channel_open true] request.fork).ret 0]) ∧
        (String.mk (w.answer [request.channel_open true, request.fork,
            request.channel_close_write] request.channel_read).data).data =
          (w.answer [request.channel_open true, request.fork, request.channel_close_write]
            request.channel_read).data)) ∧
      ((w.answer [request.channel_open true, request.fork, request.channel_close_write]
          request.channel_read).data = [] →
        (debug = false →
          process.launch path debug uninit w =
            (launch_result.returned
              { pid_ := (w.answer [request.channel_open true] request.fork).ret,
                terminate_on_end_ := true, state_ := process_state.stopped,
                is_attached_ := false },
             w.after [request.channel_open true, request.fork, request.channel_close_write,
               request.channel_read, request.channel_close_read])) ∧
        (debug = true →
          (0 ≤ (w.answer [request.channel_open true, request.fork,
                  request.channel_close_write, request.channel_read,
                  request.channel_close_read]
                (request.waitpid (w.answer [request.channel_open true] request.fork).ret
                  0)).ret →
            process.launch path debug uninit w =
              (launch_result.returned
                { pid_ := (w.answer [request.channel_open true] request.fork).ret,
                  terminate_on_end_ := true,
                  state_ := (stop_reason.ctor uninit
                    (w.answer [request.channel_open true, request.fork,
                        request.channel_close_write, request.channel_read,
                        request.channel_close_read]
                      (request.waitpid (w.answer [request.channel_open true] request.fork).ret
                        0)).status).reason,
                  is_attached_ := true },
               w.after [request.channel_open true, request.fork, request.channel_close_write,
                 request.channel_read, request.channel_close_read,
                 request.waitpid (w.answer [request.channel_open true] request.fork).ret 0])) ∧
          ((w.answer [request.channel_open true, request.fork,
                  request.channel_close_write, request.channel_read,
                  request.channel_close_read]
                (request.waitpid (w.answer [request.channel_open true] request.fork).ret
                  0)).ret < 0 →
            process.launch path debug uninit w =
              (launch_result.thrown (error.send_errno "wait_on_signal failed"
                  (w.answer [request.channel_open true, request.fork,
                      request.channel_close_write, request.channel_read,
                      request.channel_close_read]
                    (request.waitpid (w.answer [request.channel_open true] request.fork).ret
                      0)).errno),
               w.after [request.channel_open true, request.fork, request.channel_close_write,
                 request.channel_read, request.channel_close_read,
                 request.waitpid (w.answer [request.channel_open true] request.fork).ret 0,
                 request.ptrace ptrace_request.PTRACE_DETACH
                   (w.answer [request.channel_open true] request.fork).ret,
                 request.kill (w.answer [request.channel_open true] request.fork).ret
                   signal.SIGCONT,
                 request.kill (w.answer [request.channel_open true] request.fork).ret
                   signal.SIGKILL,
                 request.waitpid (w.answer [request.channel_open true] request.fork).ret
                   0])))) := by
  have hf1 : ¬ (w.answer [request.channel_open true] request.fork).ret < 0 := by omega
  have hf2 : ¬ (w.answer [request.channel_open true] request.fork).ret = 0 := by omega
  refine ⟨?_, ?_⟩
  · intro hd
    have hlen : 0 < (w.answer [request.channel_open true, request.fork,
        request.channel_close_write] request.channel_read).data.length :=
      List.length_pos.2 hd
    simp [process.launch, pipe.ctor, pipe.close_read, pipe.close_write, pipe.read, os.call_eq, os.after_call, os.after_answer, os.after_after, hf1,
      hf2, hlen, hd]
  · intro hd
    refine ⟨?_, ?_⟩
    · intro hdebug
      subst hdebug
      simp [process.launch, pipe.ctor, pipe.close_read, pipe.close_write, pipe.read, os.call_eq, os.after_call, os.after_answer, os.after_after, hf1,
        hf2, hd, process.ctor]
    · intro hdebug
      subst hdebug
      refine ⟨?_, ?_⟩
      · intro hw
        have hw1 : ¬ (w.answer [request.channel_open true, request.fork,
            request.channel_close_write, request.channel_read, request.channel_close_read]
            (request.waitpid (w.answer [request.channel_open true] request.fork).ret
              0)).ret < 0 := by omega
        simp [process.launch, pipe.ctor, pipe.close_read, pipe.close_write, pipe.read, os.call_eq, os.after_call, os.after_answer, os.after_after,
          hf1, hf2, hd, process.ctor, process.wait_on_signal, hw1]
      · intro hw
        simp [process.launch, pipe.ctor, pipe.close_read, pipe.close_write, pipe.read, os.call_eq, os.after_call, os.after_answer, os.after_after,
          hf1, hf2, hd, process.ctor, process.wait_on_signal, hw, process.dtor]

theorem launch_spec_witness :
    (process.launch "/bin/none" true ⟨process_state.running, 0⟩
        (scripted_os 0x057f "exec failed: No such file".toList)).1
        = launch_result.thrown (error.send "exec failed: No such file") ∧
      (process.launch "/bin/none" true ⟨process_state.running, 0⟩
        (scripted_os 0x057f "exec failed: No such file".toList)).2.trace
        = [request.channel_open true, request.fork, request.channel_close_write,
            request.channel_read, request.channel_close_read, request.waitpid 1 0] ∧
      (process.launch "/bin/true" true ⟨process_state.running, 0⟩ (scripted_os 0x057f [])).1
        = launch_result.returned (process.mk 1 true process_state.stopped true) ∧
      (process.launch "/bin/true" true ⟨process_state.running, 0⟩
        (scripted_os 0x057f [])).2.trace
        = [request.channel_open true, request.fork, request.channel_close_write,
            request.channel_read, request.channel_close_read, request.waitpid 1 0] ∧
      (process.launch "/bin/true" false ⟨process_state.running, 0⟩ (scripted_os 0x057f [])).1
        = launch_result.returned (process.mk 1 true process_state.stopped false) ∧
      (process.launch "/bin/true" false ⟨process_state.running, 0⟩
        (scripted_os 0x057f [])).2.trace
        = [request.channel_open true, request.fork, request.channel_close_write,
            request.channel_read, request.channel_close_read] := by
  have h1 := ((launch_spec "/bin/none" true ⟨process_state.running, 0⟩
    (scripted_os 0x057f "exec failed: No such file".toList) (by decide)).1 (by decide)).1
  have h2 := (((launch_spec "/bin/true" true ⟨process_state.running, 0⟩
    (scripted_os 0x057f []) (by decide)).2 rfl).2 rfl).1 (by decide)
  have h3 := ((launch_spec "/bin/true" false ⟨process_state.running, 0⟩
    (scripted_os 0x057f []) (by decide)).2 rfl).1 rfl
  rw [h1, h2, h3]
  exact ⟨rfl, rfl, rfl, rfl, rfl, rfl⟩


/-! ## `split` and `handle_command` -/

theorem getline_rest_length (c : Char) (cs : List Char) (d : Char) :
    (((c :: cs).dropWhile (fun x => x ≠ d)).drop 1).length ≤ cs.length := by
  have h := (List.dropWhile_sublist (fun x => decide (x ≠ d)) (l := c :: cs)).length_le
  simp only [List.length_drop, List.length_cons] at *
  omega

theorem split_loop_enough_fuel (d : Char) :
    ∀ (fuel : Nat) (ss : List Char) (result : List (List Char)), ss.length < fuel →
      ∃ items, split_loop fuel ss d result = some (result ++ items) := by
  intro fuel
  induction fuel with
  | zero => intro ss result h; omega
  | succ n ih =>
    intro ss result h
    cases ss with
    | nil => exact ⟨[], by simp [split_loop, getline]⟩
    | cons c cs =>
      have hlen := getline_rest_length c cs d
      have hlt : (((c :: cs).dropWhile (fun x => x ≠ d)).drop 1).length < n := by
        simp only [List.length_cons] at h
        omega
      obtain ⟨items, hitems⟩ := ih (((c :: cs).dropWhile (fun x => x ≠ d)).drop 1)
        (result ++ [(c :: cs).takeWhile (fun x => x ≠ d)]) hlt
      refine ⟨(c :: cs).takeWhile (fun x => x ≠ d) :: items, ?_⟩
      have step : split_loop (n + 1) (c :: cs) d result =
          split_loop n (((c :: cs).dropWhile (fun x => x ≠ d)).drop 1) d
            (result ++ [(c :: cs).takeWhile (fun x => x ≠ d)]) := rfl
      rw [step, hitems]
      simp

theorem split_head (line : List Char) (hne : line ≠ []) :
    ∃ items, split line ' ' = some (line.takeWhile (fun x => x ≠ ' ') :: items) := by
  cases line with
  | nil => exact absurd rfl hne
  | cons c cs =>
    have hlen := getline_rest_length c cs ' '
    obtain ⟨items, hitems⟩ := split_loop_enough_fuel ' ' (cs.length + 1)
      (((c :: cs).dropWhile (fun x => x ≠ ' ')).drop 1)
      ([] ++ [(c :: cs).takeWhile (fun x => x ≠ ' ')]) (by omega)
    refine ⟨items, ?_⟩
    have step : split (c :: cs) ' ' =
        split_loop (cs.length + 1) (((c :: cs).dropWhile (fun x => x ≠ ' ')).drop 1) ' '
          ([] ++ [(c :: cs).takeWhile (fun x => x ≠ ' ')]) := rfl
    rw [step, hitems]
    simp

/-- C9: a line that begins with a space has the empty text before its first space as its
command, and `handle_command` treats it exactly like the line `continue`: the empty command
passes `is_prefix`, so the process is resumed and waited on and nothing is reported as an
unknown command. -/
theorem handle_command_blank_is_continue (p : process) (uninit : stop_reason) (w : os)
    (rest : List Char) :
    is_prefix [] "continue".toList = true ∧
      handle_command p (' ' :: rest) uninit w = handle_command p "continue".toList uninit w ∧
      (handle_command (process.ctor 5 true true) " ".toList ⟨process_state.running, 0⟩
          (scripted_os 0x0700 [])).map (fun r => r.2.2.trace) =
        some [request.ptrace ptrace_request.PTRACE_CONT 5, request.waitpid 5 0,
          request.cout "Process 5 exited with status 7\n"] := by
  refine ⟨rfl, ?_, rfl⟩
  obtain ⟨items, hitems⟩ := split_head (' ' :: rest) (by simp)
  have hc : split "continue".toList ' ' = some ["continue".toList] := rfl
  have h1 : is_prefix [] "continue".toList = true := rfl
  have h2 : is_prefix "continue".toList "continue".toList = true := rfl
  have ht : (' ' :: rest).takeWhile (fun x => x ≠ ' ') = [] := by simp
  rw [ht] at hitems
  simp only [handle_command, hitems, hc, h1, h2, if_true]

end sdb
